import Mathlib

/-!
Shallow embedding of the popularity pipeline of `movie_recommender_new.py`.

Numeric columns are modelled over `ℚ`: every arithmetic step of the source
(`mean`, min-max scaling, the 0.4/0.6 weighted sum) is exact in the reals, and
the claims are about those formulas, not about float rounding.

Library calls are embedded at their documented semantics:
* `DataFrame.groupby` sorts the group keys ascending and aggregates per group;
* `pd.merge(..., on='movieId')` is an inner join preserving the order of the
  left frame's rows, each left row expanding to its right matches in order;
* `MinMaxScaler` computes `scale = 1 / handle_zeros(data_max - data_min)` and
  `min_ = -data_min * scale`, then transforms `x ↦ x * scale + min_`, where
  `_handle_zeros_in_scale` replaces a zero range by 1;
* `sort_values(..., ascending=False)` is modelled as a stable merge sort on the
  descending comparator (pandas reverses a reversed ascending argsort, which
  preserves the original order of ties whenever the underlying argsort kernel
  is stable; numpy's default kernel is stable on small arrays only, see the
  comment at `sortEntriesDesc`);
* `Series.str.contains(pat, case=False, na=False)` performs a case-insensitive
  regular-expression search (`regex=True` is the pandas default); the regex
  fragment embedded here covers literals and the `.` metacharacter, and
  theorems quantifying over query strings restrict to that fragment.
-/

namespace MovieRec

/-- Row of `ratings.csv` as loaded by `load_data` (columns userId, movieId,
rating, timestamp); `timestamp` and `userId` are carried but unused by the
popularity computation. -/
structure RatingEvent where
  userId : Nat
  movieId : Nat
  rating : ℚ
  timestamp : Nat
deriving DecidableEq, Repr

/-- Row of `movies.csv` (columns movieId, title, genres); `genres` is the
pipe-delimited joined genre string. -/
structure Movie where
  movieId : Nat
  title : String
  genres : String
deriving DecidableEq, Repr

/-- Row of `popularity_df` after the two groupbys and their merge
(`movie_recommender_new.py` lines 48-57): per-movie mean rating and rating
count. -/
structure MovieStat where
  movieId : Nat
  avg_rating : ℚ
  rating_count : Nat
deriving DecidableEq, Repr

/-- Row of `popularity_df` after the scaled columns and the score column are
added (lines 59-68). -/
structure ScoredStat where
  movieId : Nat
  avg_rating : ℚ
  rating_count : Nat
  avg_rating_scaled : ℚ
  rating_count_scaled : ℚ
  popularity_score : ℚ
deriving DecidableEq, Repr

/-- Row of the final `result` frame after the join with `movies_df`
(line 74). -/
structure PopEntry where
  movieId : Nat
  avg_rating : ℚ
  rating_count : Nat
  avg_rating_scaled : ℚ
  rating_count_scaled : ℚ
  popularity_score : ℚ
  title : String
  genres : String
deriving DecidableEq, Repr

/-- Distinct movieIds of the rating rows in ascending order: `groupby('movieId')`
sorts the group keys. -/
def groupKeys (ratings : List RatingEvent) : List Nat :=
  (List.insertionSort (fun a b : Nat => a ≤ b) (ratings.map (fun r => r.movieId))).dedup

/-- Rating rows of one groupby group. -/
def groupOf (ratings : List RatingEvent) (id : Nat) : List RatingEvent :=
  ratings.filter (fun r => r.movieId == id)

/-- Aggregator (lines 48-57): `ratings_df.groupby('movieId')['rating'].mean()`,
`...count()`, merged on `movieId`. Both groupbys run over the same frame, so
they produce the same keys in the same order and the inner merge pairs them
rowwise. -/
def aggregate_ratings (ratings : List RatingEvent) : List MovieStat :=
  (groupKeys ratings).map (fun id =>
    { movieId := id
      avg_rating := ((groupOf ratings id).map (fun r => r.rating)).sum /
        ((groupOf ratings id).length : ℚ)
      rating_count := (groupOf ratings id).length })

/-- Least element of a nonempty column (`np.min`); 0 for an empty column, a
case `MinMaxScaler.fit` would reject but which the model totalises. -/
def listMin : List ℚ → ℚ
  | [] => 0
  | x :: xs => xs.foldl min x

/-- Greatest element of a nonempty column (`np.max`); 0 for an empty column. -/
def listMax : List ℚ → ℚ
  | [] => 0
  | x :: xs => xs.foldl max x

/-- sklearn's `_handle_zeros_in_scale`: a zero data range is replaced by 1 so
the transform never divides by zero. -/
def handleZeros (r : ℚ) : ℚ := if r = 0 then 1 else r

/-- `MinMaxScaler` transform of one value of a column whose fitted data_min is
`dmin` and data_max is `dmax` (feature_range (0,1)): `x * scale_ + min_` with
`scale_ = 1 / handle_zeros(dmax - dmin)` and `min_ = -dmin * scale_`. -/
def minmaxScale (dmin dmax x : ℚ) : ℚ :=
  x * (1 / handleZeros (dmax - dmin)) + (0 - dmin * (1 / handleZeros (dmax - dmin)))

/-- The avg_rating column of the frame the scaler is fitted on. -/
def avgColumn (stats : List MovieStat) : List ℚ :=
  stats.map (fun s => s.avg_rating)

/-- The rating_count column of the frame the scaler is fitted on. -/
def countColumn (stats : List MovieStat) : List ℚ :=
  stats.map (fun s => (s.rating_count : ℚ))

/-- One row of lines 59-68: the two scaled columns of the fitted `MinMaxScaler`
and the weighted score `0.4 * avg_rating_scaled + 0.6 * rating_count_scaled`
(the scaler is fitted on the full frame `stats`, transformed row by row). -/
def scoreRow (stats : List MovieStat) (s : MovieStat) : ScoredStat :=
  { movieId := s.movieId
    avg_rating := s.avg_rating
    rating_count := s.rating_count
    avg_rating_scaled :=
      minmaxScale (listMin (avgColumn stats)) (listMax (avgColumn stats)) s.avg_rating
    rating_count_scaled :=
      minmaxScale (listMin (countColumn stats)) (listMax (countColumn stats)) (s.rating_count : ℚ)
    popularity_score :=
      0.4 * minmaxScale (listMin (avgColumn stats)) (listMax (avgColumn stats)) s.avg_rating
        + 0.6 * minmaxScale (listMin (countColumn stats)) (listMax (countColumn stats))
          (s.rating_count : ℚ) }

/-- Lines 59-68: fit `MinMaxScaler` on the two columns of `popularity_df`,
store the scaled columns, and add the weighted score column. -/
def scoreStats (stats : List MovieStat) : List ScoredStat :=
  stats.map (scoreRow stats)

/-- Comparator of `sort_values('popularity_score', ascending=False)` on the
pre-join frame: a row sorts before another when its score is at least as
large. -/
def scoreDescRel (a b : ScoredStat) : Prop :=
  b.popularity_score ≤ a.popularity_score

instance : DecidableRel scoreDescRel :=
  fun a b => inferInstanceAs (Decidable (b.popularity_score ≤ a.popularity_score))

/-- Line 71: `popularity_df.sort_values('popularity_score', ascending=False)`,
modelled as a stable sort on the descending comparator. pandas double-reverses
an ascending argsort, which keeps ties in original order exactly when the
argsort kernel is stable; the default `kind='quicksort'` kernel is stable only
on small arrays, so stability of this model beyond that regime is a modelling
choice, and no theorem below relies on it. -/
def sortByScoreDesc (l : List ScoredStat) : List ScoredStat :=
  List.insertionSort scoreDescRel l

/-- Comparator of the same sort on the joined frame (line 104). -/
def entryDescRel (a b : PopEntry) : Prop :=
  b.popularity_score ≤ a.popularity_score

instance : DecidableRel entryDescRel :=
  fun a b => inferInstanceAs (Decidable (b.popularity_score ≤ a.popularity_score))

/-- Line 104: `filtered_df.sort_values('popularity_score', ascending=False)`,
modelled as for `sortByScoreDesc`. -/
def sortEntriesDesc (l : List PopEntry) : List PopEntry :=
  List.insertionSort entryDescRel l

/-- One joined row of line 74: numeric columns from the left (popularity)
frame, `title` and `genres` from the right (movies) frame. -/
def joinRow (s : ScoredStat) (m : Movie) : PopEntry :=
  { movieId := s.movieId
    avg_rating := s.avg_rating
    rating_count := s.rating_count
    avg_rating_scaled := s.avg_rating_scaled
    rating_count_scaled := s.rating_count_scaled
    popularity_score := s.popularity_score
    title := m.title
    genres := m.genres }

/-- Line 74: `pd.merge(popularity_df, movies_df, on='movieId')` — inner join,
left row order preserved, each left row expanded to its right matches in right
order. -/
def joinMovies (scored : List ScoredStat) (movies : List Movie) : List PopEntry :=
  scored.flatMap (fun s =>
    (movies.filter (fun m => m.movieId == s.movieId)).map (joinRow s))

/-- `calculate_popularity(movies_df, ratings_df)` (lines 30-76): aggregate,
scale, score, sort by score descending, join movie metadata. -/
def calculate_popularity (movies : List Movie) (ratings : List RatingEvent) : List PopEntry :=
  joinMovies (sortByScoreDesc (scoreStats (aggregate_ratings ratings))) movies

/-- Atom of the embedded regular-expression fragment: the `.` metacharacter or
a literal character (stored lowercased, handling IGNORECASE). -/
inductive RAtom where
  | dot
  | lit (c : Char)
deriving DecidableEq, Repr

/-- Modelled from Python `re`: the query string read as a pattern. Only `.` is
treated as a metacharacter; every other character becomes a literal. Theorems
quantifying over queries carry a hypothesis restricting them to this fragment
(`patSimple`), since on other metacharacters this definition diverges from
`re` (which may alternate, repeat, or raise `re.error`). -/
def patAtoms (pat : String) : List RAtom :=
  pat.toList.map (fun c => if c = '.' then RAtom.dot else RAtom.lit c.toLower)

/-- Match of one atom against one subject character: `.` matches anything but a
newline (no DOTALL flag is passed); a literal matches case-insensitively. -/
def atomMatches (a : RAtom) (c : Char) : Bool :=
  match a with
  | RAtom.dot => c != Char.ofNat 10
  | RAtom.lit l => l == c.toLower

/-- Match of a whole pattern against a prefix of the subject. -/
def matchHere : List RAtom → List Char → Bool
  | [], _ => true
  | _ :: _, [] => false
  | a :: as, c :: cs => atomMatches a c && matchHere as cs

/-- `re.search`: match of the pattern starting at any position of the
subject. -/
def searchFrom : List RAtom → List Char → Bool
  | as, [] => matchHere as []
  | as, c :: cs => matchHere as (c :: cs) || searchFrom as cs

/-- One row's worth of line 96,
`popularity_df['genres'].str.contains(genre, case=False, na=False)`:
case-insensitive regular-expression search of the query in the joined genre
string (`regex=True` is the pandas default). -/
def genreContains (genres : String) (pat : String) : Bool :=
  searchFrom (patAtoms pat) genres.toList

/-- Line 96: the boolean mask applied to the frame. -/
def filterByGenre (entries : List PopEntry) (pat : String) : List PopEntry :=
  entries.filter (fun e => genreContains e.genres pat)

/-- Filter semantics in the spec's words, for comparison with `genreContains`:
plain case-insensitive substring containment of the query in the joined genre
string. -/
def specGenreMatch (genres : String) (pat : String) : Bool :=
  decide ((pat.toList.map Char.toLower) <:+: (genres.toList.map Char.toLower))

/-- Regex metacharacters other than the dot (braces included, written by code
point). On queries containing any of these, the embedded fragment is not
faithful to `re`. -/
def regexMeta : List Char :=
  ['\\', '^', '$', '*', '+', '?', '[', ']', '(', ')', '|', Char.ofNat 123, Char.ofNat 125]

/-- Queries on which the embedded regex fragment is faithful to `re`: no
metacharacter except possibly the dot. -/
def patSimple (pat : String) : Prop :=
  ∀ c ∈ pat.toList, c ∉ regexMeta

/-- Queries that `re` treats as pure literals: additionally dot-free. -/
def patPlain (pat : String) : Prop :=
  patSimple pat ∧ ∀ c ∈ pat.toList, c ≠ '.'

/-- Rank operation of the spec over the joined frame: sort by score descending,
truncate to the first `n` rows (lines 104-105). -/
def rankTop (n : Nat) (entries : List PopEntry) : List PopEntry :=
  (sortEntriesDesc entries).take n

/-- Python truthiness of the `genre` argument at line 94: `None` and the empty
string are falsy, every other string truthy. -/
def genreTruthy : Option String → Bool
  | none => false
  | some g => g != ""

/-- `recommend_popular_movies(popularity_df, n, genre)` (lines 78-108). The
printed message and `return None` of the empty-filter branch become `none`;
every successful branch returns `some` of the resulting rows. -/
def recommend_popular_movies (popularity : List PopEntry) (n : Nat)
    (genre : Option String) : Option (List PopEntry) :=
  match genre with
  | some g =>
    if g ≠ "" then
      if filterByGenre popularity g = [] then none
      else some ((sortEntriesDesc (filterByGenre popularity g)).take n)
    else some (popularity.take n)
  | none => some (popularity.take n)

/-! Helper lemmas about column minima and maxima. -/

lemma foldl_min_le (x : ℚ) (xs : List ℚ) : xs.foldl min x ≤ x := by
  induction xs generalizing x with
  | nil => simp
  | cons y ys ih => exact le_trans (ih (min x y)) (min_le_left x y)

lemma foldl_min_le_of_mem {a : ℚ} {xs : List ℚ} (x : ℚ) (h : a ∈ xs) :
    xs.foldl min x ≤ a := by
  induction xs generalizing x with
  | nil => cases h
  | cons y ys ih =>
    rcases List.mem_cons.mp h with rfl | h'
    · exact le_trans (foldl_min_le (min x a) ys) (min_le_right x a)
    · exact ih (min x y) h'

lemma listMin_le {l : List ℚ} {a : ℚ} (h : a ∈ l) : listMin l ≤ a := by
  cases l with
  | nil => cases h
  | cons x xs =>
    rcases List.mem_cons.mp h with rfl | h'
    · exact foldl_min_le a xs
    · exact foldl_min_le_of_mem x h'

lemma le_foldl_max (x : ℚ) (xs : List ℚ) : x ≤ xs.foldl max x := by
  induction xs generalizing x with
  | nil => simp
  | cons y ys ih => exact le_trans (le_max_left x y) (ih (max x y))

lemma le_foldl_max_of_mem {a : ℚ} {xs : List ℚ} (x : ℚ) (h : a ∈ xs) :
    a ≤ xs.foldl max x := by
  induction xs generalizing x with
  | nil => cases h
  | cons y ys ih =>
    rcases List.mem_cons.mp h with rfl | h'
    · exact le_trans (le_max_right x a) (le_foldl_max (max x a) ys)
    · exact ih (max x y) h'

lemma le_listMax {l : List ℚ} {a : ℚ} (h : a ∈ l) : a ≤ listMax l := by
  cases l with
  | nil => cases h
  | cons x xs =>
    rcases List.mem_cons.mp h with rfl | h'
    · exact le_foldl_max a xs
    · exact le_foldl_max_of_mem x h'

lemma listMin_le_listMax {l : List ℚ} (h : l ≠ []) : listMin l ≤ listMax l := by
  cases l with
  | nil => exact absurd rfl h
  | cons x xs =>
    exact le_trans (listMin_le (List.mem_cons_self x xs)) (le_listMax (List.mem_cons_self x xs))

lemma foldl_min_mem (x : ℚ) (xs : List ℚ) : xs.foldl min x ∈ x :: xs := by
  induction xs generalizing x with
  | nil => simp
  | cons y ys ih =>
    have h := ih (min x y)
    simp only [List.foldl_cons]
    rcases List.mem_cons.mp h with h' | h'
    · rw [h']
      rcases min_choice x y with hc | hc <;> rw [hc]
      · exact List.mem_cons_self x (y :: ys)
      · exact List.mem_cons_of_mem x (List.mem_cons_self y ys)
    · exact List.mem_cons_of_mem x (List.mem_cons_of_mem y h')

lemma listMin_mem {l : List ℚ} (h : l ≠ []) : listMin l ∈ l := by
  cases l with
  | nil => exact absurd rfl h
  | cons x xs => exact foldl_min_mem x xs

lemma foldl_max_mem (x : ℚ) (xs : List ℚ) : xs.foldl max x ∈ x :: xs := by
  induction xs generalizing x with
  | nil => simp
  | cons y ys ih =>
    have h := ih (max x y)
    simp only [List.foldl_cons]
    rcases List.mem_cons.mp h with h' | h'
    · rw [h']
      rcases max_choice x y with hc | hc <;> rw [hc]
      · exact List.mem_cons_self x (y :: ys)
      · exact List.mem_cons_of_mem x (List.mem_cons_self y ys)
    · exact List.mem_cons_of_mem x (List.mem_cons_of_mem y h')

lemma listMax_mem {l : List ℚ} (h : l ≠ []) : listMax l ∈ l := by
  cases l with
  | nil => exact absurd rfl h
  | cons x xs => exact foldl_max_mem x xs

/-! Helper lemmas about the scaler transform. -/

lemma handleZeros_ne_zero (r : ℚ) : handleZeros r ≠ 0 := by
  unfold handleZeros
  split
  · norm_num
  · assumption

lemma minmaxScale_eq_sub_div {dmin dmax : ℚ} (x : ℚ) (h : dmin ≠ dmax) :
    minmaxScale dmin dmax x = (x - dmin) / (dmax - dmin) := by
  have hr : dmax - dmin ≠ 0 := sub_ne_zero.mpr (Ne.symm h)
  unfold minmaxScale handleZeros
  rw [if_neg hr]
  field_simp
  ring

lemma minmaxScale_degenerate (dmin x : ℚ) : minmaxScale dmin dmin x = x - dmin := by
  unfold minmaxScale handleZeros
  rw [if_pos (sub_self dmin)]
  ring

lemma minmaxScale_nonneg {dmin dmax x : ℚ} (h1 : dmin ≤ x) (hlt : dmin < dmax) :
    0 ≤ minmaxScale dmin dmax x := by
  rw [minmaxScale_eq_sub_div x (ne_of_lt hlt)]
  exact div_nonneg (sub_nonneg.mpr h1) (le_of_lt (sub_pos.mpr hlt))

lemma minmaxScale_le_one {dmin dmax x : ℚ} (h2 : x ≤ dmax) (hlt : dmin < dmax) :
    minmaxScale dmin dmax x ≤ 1 := by
  rw [minmaxScale_eq_sub_div x (ne_of_lt hlt)]
  exact (div_le_one (sub_pos.mpr hlt)).mpr (sub_le_sub_right h2 dmin)

lemma minmaxScale_at_min {dmin dmax : ℚ} (h : dmin ≠ dmax) :
    minmaxScale dmin dmax dmin = 0 := by
  rw [minmaxScale_eq_sub_div dmin h, sub_self, zero_div]

lemma minmaxScale_at_max {dmin dmax : ℚ} (h : dmin ≠ dmax) :
    minmaxScale dmin dmax dmax = 1 := by
  rw [minmaxScale_eq_sub_div dmax h]
  exact div_self (sub_ne_zero.mpr (Ne.symm h))

/-! Helper lemmas about the descending sorts. -/

lemma sortEntriesDesc_sorted (l : List PopEntry) :
    (sortEntriesDesc l).Pairwise entryDescRel :=
  @List.sorted_insertionSort _ entryDescRel _
    ⟨fun a b => le_total b.popularity_score a.popularity_score⟩
    ⟨fun _ _ _ h1 h2 => le_trans h2 h1⟩ l

lemma sortEntriesDesc_perm (l : List PopEntry) : (sortEntriesDesc l).Perm l :=
  List.perm_insertionSort entryDescRel l

lemma sortByScoreDesc_sorted (l : List ScoredStat) :
    (sortByScoreDesc l).Pairwise scoreDescRel :=
  @List.sorted_insertionSort _ scoreDescRel _
    ⟨fun a b => le_total b.popularity_score a.popularity_score⟩
    ⟨fun _ _ _ h1 h2 => le_trans h2 h1⟩ l

lemma sortByScoreDesc_perm (l : List ScoredStat) : (sortByScoreDesc l).Perm l :=
  List.perm_insertionSort scoreDescRel l

/-! Helper lemmas about the join. -/

lemma joinMovies_nil (movies : List Movie) : joinMovies [] movies = [] := rfl

lemma joinMovies_cons (s : ScoredStat) (rest : List ScoredStat) (movies : List Movie) :
    joinMovies (s :: rest) movies
      = (movies.filter (fun m => m.movieId == s.movieId)).map (joinRow s)
        ++ joinMovies rest movies := by
  simp [joinMovies]

lemma mem_joinMovies {scored : List ScoredStat} {movies : List Movie} {e : PopEntry}
    (h : e ∈ joinMovies scored movies) :
    ∃ s ∈ scored, e.popularity_score = s.popularity_score
      ∧ e.avg_rating_scaled = s.avg_rating_scaled
      ∧ e.rating_count_scaled = s.rating_count_scaled
      ∧ e.avg_rating = s.avg_rating
      ∧ e.rating_count = s.rating_count := by
  rcases List.mem_flatMap.mp h with ⟨s, hs, hmem⟩
  rcases List.mem_map.mp hmem with ⟨m, _, rfl⟩
  exact ⟨s, hs, rfl, rfl, rfl, rfl, rfl⟩

lemma pairwise_of_total_rel {α : Type} {R : α → α → Prop} (hR : ∀ a b, R a b)
    (l : List α) : l.Pairwise R := by
  induction l with
  | nil => exact List.Pairwise.nil
  | cons x xs ih => exact List.Pairwise.cons (fun y _ => hR x y) ih

lemma joinMovies_pairwise {movies : List Movie} {scored : List ScoredStat}
    (h : scored.Pairwise scoreDescRel) :
    (joinMovies scored movies).Pairwise entryDescRel := by
  induction scored with
  | nil => simp [joinMovies_nil]
  | cons s rest ih =>
    rcases List.pairwise_cons.mp h with ⟨hhead, htail⟩
    rw [joinMovies_cons]
    apply List.pairwise_append.mpr
    refine ⟨?_, ih htail, ?_⟩
    · exact List.pairwise_map.mpr (pairwise_of_total_rel (fun m1 m2 => le_refl _) _)
    · intro a ha b hb
      rcases List.mem_map.mp ha with ⟨m, _, rfl⟩
      rcases mem_joinMovies hb with ⟨s', hs', hb1, _⟩
      have hss : scoreDescRel s s' := hhead s' hs'
      show b.popularity_score ≤ (joinRow s m).popularity_score
      rw [hb1]
      exact hss

/-! Helper lemmas about scoring. -/

lemma mem_scoreStats {stats : List MovieStat} {t : ScoredStat} (h : t ∈ scoreStats stats) :
    ∃ s ∈ stats, t = scoreRow stats s := by
  rcases List.mem_map.mp h with ⟨s, hs, rfl⟩
  exact ⟨s, hs, rfl⟩

lemma avg_mem_avgColumn {stats : List MovieStat} {s : MovieStat} (h : s ∈ stats) :
    s.avg_rating ∈ avgColumn stats :=
  List.mem_map_of_mem (fun s => s.avg_rating) h

lemma count_mem_countColumn {stats : List MovieStat} {s : MovieStat} (h : s ∈ stats) :
    (s.rating_count : ℚ) ∈ countColumn stats :=
  List.mem_map_of_mem (fun s => (s.rating_count : ℚ)) h

/-! Helper lemmas about the aggregator. -/

lemma groupKeys_nodup (ratings : List RatingEvent) : (groupKeys ratings).Nodup :=
  List.nodup_dedup _

lemma mem_groupKeys {ratings : List RatingEvent} {id : Nat} :
    id ∈ groupKeys ratings ↔ ∃ r ∈ ratings, r.movieId = id := by
  unfold groupKeys
  rw [List.mem_dedup, (List.perm_insertionSort _ _).mem_iff, List.mem_map]

lemma aggregate_map_movieId (ratings : List RatingEvent) :
    (aggregate_ratings ratings).map (fun s => s.movieId) = groupKeys ratings := by
  unfold aggregate_ratings
  rw [List.map_map]
  exact List.map_id _

lemma mem_aggregate_movieId {ratings : List RatingEvent} {s : MovieStat}
    (h : s ∈ aggregate_ratings ratings) : s.movieId ∈ groupKeys ratings := by
  rw [← aggregate_map_movieId]
  exact List.mem_map_of_mem (fun s => s.movieId) h

/-! Helper lemmas about the embedded regex fragment: a pattern made only of
literals matches exactly where the lowered pattern is a prefix (respectively a
contiguous sublist) of the lowered subject. -/

lemma matchHere_lit_iff (ps : List Char) (hay : List Char) :
    matchHere (ps.map RAtom.lit) hay = true ↔ ps <+: hay.map Char.toLower := by
  induction ps generalizing hay with
  | nil => simp [matchHere]
  | cons p ps ih =>
    cases hay with
    | nil => simp [matchHere]
    | cons c cs =>
      simp only [List.map_cons, matchHere, atomMatches, Bool.and_eq_true, beq_iff_eq, ih,
        List.cons_prefix_cons]

lemma searchFrom_lit_iff (ps : List Char) (hay : List Char) :
    searchFrom (ps.map RAtom.lit) hay = true ↔ ps <:+: hay.map Char.toLower := by
  induction hay with
  | nil => simp [searchFrom, matchHere_lit_iff, List.infix_nil, List.prefix_nil]
  | cons c cs ih =>
    simp only [searchFrom, Bool.or_eq_true, matchHere_lit_iff, ih, List.map_cons,
      List.infix_cons_iff]

lemma patAtoms_of_dotfree {pat : String} (h : ∀ c ∈ pat.toList, c ≠ '.') :
    patAtoms pat = (pat.toList.map Char.toLower).map RAtom.lit := by
  unfold patAtoms
  rw [List.map_map]
  exact List.map_congr_left (fun c hc => by simp [h c hc])

lemma genreContains_eq_spec {pat : String} (h : patPlain pat) (genres : String) :
    genreContains genres pat = specGenreMatch genres pat := by
  rcases h with ⟨-, hdot⟩
  rw [Bool.eq_iff_iff]
  unfold genreContains specGenreMatch
  rw [patAtoms_of_dotfree hdot, searchFrom_lit_iff, decide_eq_true_iff]

/-! Concrete data for witnesses and counterexamples: the scenario of spec §8
(movie 1: two ratings 5.0 and 3.0; movie 2: one rating 4.0). -/

/-- Example rating rows. -/
def exRatings : List RatingEvent :=
  [{ userId := 1, movieId := 1, rating := 5, timestamp := 10 },
   { userId := 2, movieId := 1, rating := 3, timestamp := 11 },
   { userId := 3, movieId := 2, rating := 4, timestamp := 12 }]

/-- Example movie rows. -/
def exMovies : List Movie :=
  [{ movieId := 1, title := "A", genres := "Comedy" },
   { movieId := 2, title := "B", genres := "Drama" }]

/-- Aggregated stats of `exRatings` (checked by evaluation below). -/
def exStats : List MovieStat :=
  [{ movieId := 1, avg_rating := 4, rating_count := 2 },
   { movieId := 2, avg_rating := 4, rating_count := 1 }]

lemma groupKeys_ex : groupKeys exRatings = [1, 2] := by decide

lemma aggregate_exRatings : aggregate_ratings exRatings = exStats := by
  unfold aggregate_ratings
  rw [groupKeys_ex]
  norm_num [groupOf, exRatings, exStats]

/-- The joined, scored row of movie 1 on the example data: tied average, so the
avg dimension degenerates to 0, and movie 1 holds the maximal count. -/
def popEx1 : PopEntry :=
  { movieId := 1, avg_rating := 4, rating_count := 2, avg_rating_scaled := 0,
    rating_count_scaled := 1, popularity_score := 0.6, title := "A", genres := "Comedy" }

/-- The joined, scored row of movie 2 on the example data. -/
def popEx2 : PopEntry :=
  { movieId := 2, avg_rating := 4, rating_count := 1, avg_rating_scaled := 0,
    rating_count_scaled := 0, popularity_score := 0, title := "B", genres := "Drama" }

/-- Scored row of movie 1 before the join. -/
def scoredEx1 : ScoredStat :=
  { movieId := 1, avg_rating := 4, rating_count := 2, avg_rating_scaled := 0,
    rating_count_scaled := 1, popularity_score := 0.6 }

/-- Scored row of movie 2 before the join. -/
def scoredEx2 : ScoredStat :=
  { movieId := 2, avg_rating := 4, rating_count := 1, avg_rating_scaled := 0,
    rating_count_scaled := 0, popularity_score := 0 }

lemma scoreStats_ex : scoreStats exStats = [scoredEx1, scoredEx2] := by
  norm_num [scoreStats, scoreRow, avgColumn, countColumn, listMin, listMax, minmaxScale,
    handleZeros, exStats, scoredEx1, scoredEx2, min_def, max_def]

lemma sortByScoreDesc_ex : sortByScoreDesc [scoredEx1, scoredEx2] = [scoredEx1, scoredEx2] := by
  norm_num [sortByScoreDesc, List.insertionSort, List.orderedInsert, scoreDescRel,
    scoredEx1, scoredEx2]

lemma calculate_popularity_ex :
    calculate_popularity exMovies exRatings = [popEx1, popEx2] := by
  unfold calculate_popularity
  rw [aggregate_exRatings, scoreStats_ex, sortByScoreDesc_ex]
  norm_num [joinMovies, joinRow, exMovies, scoredEx1, scoredEx2, popEx1, popEx2]

/-- Example entry list already sorted by score descending. -/
def demoEntries : List PopEntry := [popEx1, popEx2]

/-- The same entries in ascending score order. -/
def demoUnsorted : List PopEntry := [popEx2, popEx1]

/-- Entry whose genre string has no literal dot, for the regex-vs-substring
counterexample. -/
def actionEntry : PopEntry :=
  { movieId := 3, avg_rating := 3, rating_count := 1, avg_rating_scaled := 0,
    rating_count_scaled := 0, popularity_score := 0, title := "C", genres := "Action|Comedy" }

instance (pat : String) : Decidable (patSimple pat) := by
  unfold patSimple
  infer_instance

instance (pat : String) : Decidable (patPlain pat) := by
  unfold patPlain
  infer_instance

/-- Generic per-value properties of the fitted scaler on a non-degenerate
column: range [0,1], the spec's `(x - min) / (max - min)` closed form, and the
endpoint values. -/
lemma scale_col_props {l : List ℚ} {x : ℚ} (hx : x ∈ l)
    (hne : listMin l ≠ listMax l) :
    (0 ≤ minmaxScale (listMin l) (listMax l) x ∧ minmaxScale (listMin l) (listMax l) x ≤ 1)
    ∧ minmaxScale (listMin l) (listMax l) x = (x - listMin l) / (listMax l - listMin l)
    ∧ (x = listMin l → minmaxScale (listMin l) (listMax l) x = 0)
    ∧ (x = listMax l → minmaxScale (listMin l) (listMax l) x = 1) := by
  have hlt : listMin l < listMax l :=
    lt_of_le_of_ne (listMin_le_listMax (List.ne_nil_of_mem hx)) hne
  refine ⟨⟨minmaxScale_nonneg (listMin_le hx) hlt, minmaxScale_le_one (le_listMax hx) hlt⟩,
    minmaxScale_eq_sub_div x hne, ?_, ?_⟩
  · rintro rfl
    exact minmaxScale_at_min hne
  · rintro rfl
    exact minmaxScale_at_max hne

lemma avgColumn_ne_nil {stats : List MovieStat} (hne : stats ≠ []) :
    avgColumn stats ≠ [] := by
  simp only [avgColumn, ne_eq, List.map_eq_nil_iff]
  exact hne

lemma countColumn_ne_nil {stats : List MovieStat} (hne : stats ≠ []) :
    countColumn stats ≠ [] := by
  simp only [countColumn, ne_eq, List.map_eq_nil_iff]
  exact hne

/-- Claim C1: every movie in the scored output of `calculate_popularity` has
popularity score `0.4 * avg_rating_scaled + 0.6 * rating_count_scaled`, where
the scaled columns are the min-max transforms of its raw average rating and
rating count over the aggregated statistics, and the output is ordered by that
score alone, descending. -/
theorem claim_C1 (movies : List Movie) (ratings : List RatingEvent) :
    (∀ e ∈ calculate_popularity movies ratings,
      e.popularity_score = 0.4 * e.avg_rating_scaled + 0.6 * e.rating_count_scaled
      ∧ e.avg_rating_scaled
          = minmaxScale (listMin (avgColumn (aggregate_ratings ratings)))
              (listMax (avgColumn (aggregate_ratings ratings))) e.avg_rating
      ∧ e.rating_count_scaled
          = minmaxScale (listMin (countColumn (aggregate_ratings ratings)))
              (listMax (countColumn (aggregate_ratings ratings))) (e.rating_count : ℚ))
    ∧ (calculate_popularity movies ratings).Pairwise entryDescRel := by
  constructor
  · intro e he
    rcases mem_joinMovies he with ⟨s, hs, hp, has, hcs, ha, hc⟩
    have hs' : s ∈ scoreStats (aggregate_ratings ratings) :=
      (sortByScoreDesc_perm _).mem_iff.mp hs
    rcases mem_scoreStats hs' with ⟨s0, hs0, rfl⟩
    refine ⟨?_, ?_, ?_⟩
    · rw [hp, has, hcs]
      rfl
    · rw [has, ha]
      rfl
    · rw [hcs, hc]
      rfl
  · exact joinMovies_pairwise (sortByScoreDesc_sorted _)

theorem claim_C1_witness :
    popEx1.popularity_score = 0.4 * popEx1.avg_rating_scaled + 0.6 * popEx1.rating_count_scaled :=
  ((claim_C1 exMovies exRatings).1 popEx1 (by rw [calculate_popularity_ex]; simp)).1

/-- Claim C5: on a nonempty statistics list whose avg (resp. count) dimension
has zero range, scaling stays total — the fitted divisor `handleZeros(range)`
is nonzero, so no division by zero occurs — and every scaled value of that
dimension is the constant fallback 0. -/
theorem claim_C5 (stats : List MovieStat) (hne : stats ≠ []) :
    handleZeros (listMax (avgColumn stats) - listMin (avgColumn stats)) ≠ 0
    ∧ handleZeros (listMax (countColumn stats) - listMin (countColumn stats)) ≠ 0
    ∧ (listMin (avgColumn stats) = listMax (avgColumn stats) →
        ∀ t ∈ scoreStats stats, t.avg_rating_scaled = 0)
    ∧ (listMin (countColumn stats) = listMax (countColumn stats) →
        ∀ t ∈ scoreStats stats, t.rating_count_scaled = 0) := by
  refine ⟨handleZeros_ne_zero _, handleZeros_ne_zero _, ?_, ?_⟩
  · intro hdeg t ht
    rcases mem_scoreStats ht with ⟨s, hs, rfl⟩
    show minmaxScale (listMin (avgColumn stats)) (listMax (avgColumn stats)) s.avg_rating = 0
    have h1 := listMin_le (avg_mem_avgColumn hs)
    have h2 := le_listMax (avg_mem_avgColumn hs)
    rw [← hdeg] at h2 ⊢
    rw [minmaxScale_degenerate]
    linarith
  · intro hdeg t ht
    rcases mem_scoreStats ht with ⟨s, hs, rfl⟩
    show minmaxScale (listMin (countColumn stats)) (listMax (countColumn stats))
      (s.rating_count : ℚ) = 0
    have h1 := listMin_le (count_mem_countColumn hs)
    have h2 := le_listMax (count_mem_countColumn hs)
    rw [← hdeg] at h2 ⊢
    rw [minmaxScale_degenerate]
    linarith

lemma exStats_ne_nil : exStats ≠ [] := by simp [exStats]

lemma exStats_avg_degenerate : listMin (avgColumn exStats) = listMax (avgColumn exStats) := by
  norm_num [listMin, listMax, avgColumn, exStats]

theorem claim_C5_witness : scoredEx1.avg_rating_scaled = 0 :=
  (claim_C5 exStats exStats_ne_nil).2.2.1 exStats_avg_degenerate scoredEx1
    (by rw [scoreStats_ex]; simp)

/-- Claim C7: the aggregator produces one statistics record per distinct
movieId — the id column has no duplicates, and an id appears exactly when some
rating event carries it — with `rating_count` the number of that movie's
events (at least one) and `avg_rating` their arithmetic mean (count times mean
equals the rating sum); the empty event list yields the empty output. -/
theorem claim_C7 (ratings : List RatingEvent) :
    ((aggregate_ratings ratings).map (fun s => s.movieId)).Nodup
    ∧ (∀ id : Nat, (∃ s ∈ aggregate_ratings ratings, s.movieId = id)
        ↔ ∃ r ∈ ratings, r.movieId = id)
    ∧ (∀ s ∈ aggregate_ratings ratings,
        s.rating_count = (groupOf ratings s.movieId).length
        ∧ 1 ≤ s.rating_count
        ∧ (s.rating_count : ℚ) * s.avg_rating
            = ((groupOf ratings s.movieId).map (fun r => r.rating)).sum)
    ∧ aggregate_ratings [] = ([] : List MovieStat) := by
  refine ⟨?_, ?_, ?_, rfl⟩
  · rw [aggregate_map_movieId]
    exact groupKeys_nodup ratings
  · intro id
    constructor
    · rintro ⟨s, hs, rfl⟩
      exact mem_groupKeys.mp (mem_aggregate_movieId hs)
    · intro h
      have hid : id ∈ groupKeys ratings := mem_groupKeys.mpr h
      exact ⟨_, List.mem_map_of_mem _ hid, rfl⟩
  · intro s hs
    unfold aggregate_ratings at hs
    rcases List.mem_map.mp hs with ⟨id, hid, rfl⟩
    have hmem : ∃ r ∈ ratings, r.movieId = id := mem_groupKeys.mp hid
    rcases hmem with ⟨r, hr, hrid⟩
    have hrg : r ∈ groupOf ratings id :=
      List.mem_filter.mpr ⟨hr, by simp [hrid]⟩
    have hlen : 0 < (groupOf ratings id).length :=
      List.length_pos.mpr (List.ne_nil_of_mem hrg)
    refine ⟨rfl, hlen, ?_⟩
    have hq : ((groupOf ratings id).length : ℚ) ≠ 0 := by
      exact_mod_cast Nat.pos_iff_ne_zero.mp hlen
    show ((groupOf ratings id).length : ℚ)
        * (((groupOf ratings id).map (fun r => r.rating)).sum / ((groupOf ratings id).length : ℚ))
      = ((groupOf ratings id).map (fun r => r.rating)).sum
    rw [mul_comm]
    exact div_mul_cancel₀ _ hq

theorem claim_C7_witness : ∃ s ∈ aggregate_ratings exRatings, s.movieId = 1 :=
  ((claim_C7 exRatings).2.1 1).mpr
    ⟨{ userId := 1, movieId := 1, rating := 5, timestamp := 10 }, by simp [exRatings], rfl⟩

/-- Claim C8: on a nonempty statistics list, for each dimension with
non-degenerate range, every scaled value lies in [0,1] and equals
`(value - min) / (max - min)`, a row attaining the raw minimum scales to
exactly 0 and a row attaining the raw maximum to exactly 1, and both endpoints
are attained by some row; the two dimensions scale independently over their own
columns. -/
theorem claim_C8 (stats : List MovieStat) (hne : stats ≠ []) :
    (listMin (avgColumn stats) ≠ listMax (avgColumn stats) →
      (∀ t ∈ scoreStats stats,
        (0 ≤ t.avg_rating_scaled ∧ t.avg_rating_scaled ≤ 1)
        ∧ t.avg_rating_scaled
            = (t.avg_rating - listMin (avgColumn stats))
              / (listMax (avgColumn stats) - listMin (avgColumn stats))
        ∧ (t.avg_rating = listMin (avgColumn stats) → t.avg_rating_scaled = 0)
        ∧ (t.avg_rating = listMax (avgColumn stats) → t.avg_rating_scaled = 1))
      ∧ (∃ t ∈ scoreStats stats, t.avg_rating_scaled = 0)
      ∧ (∃ t ∈ scoreStats stats, t.avg_rating_scaled = 1))
    ∧ (listMin (countColumn stats) ≠ listMax (countColumn stats) →
      (∀ t ∈ scoreStats stats,
        (0 ≤ t.rating_count_scaled ∧ t.rating_count_scaled ≤ 1)
        ∧ t.rating_count_scaled
            = ((t.rating_count : ℚ) - listMin (countColumn stats))
              / (listMax (countColumn stats) - listMin (countColumn stats))
        ∧ ((t.rating_count : ℚ) = listMin (countColumn stats) → t.rating_count_scaled = 0)
        ∧ ((t.rating_count : ℚ) = listMax (countColumn stats) → t.rating_count_scaled = 1))
      ∧ (∃ t ∈ scoreStats stats, t.rating_count_scaled = 0)
      ∧ (∃ t ∈ scoreStats stats, t.rating_count_scaled = 1)) := by
  constructor
  · intro hdim
    refine ⟨?_, ?_, ?_⟩
    · intro t ht
      rcases mem_scoreStats ht with ⟨s, hs, rfl⟩
      exact scale_col_props (avg_mem_avgColumn hs) hdim
    · have hmin : listMin (avgColumn stats) ∈ avgColumn stats :=
        listMin_mem (avgColumn_ne_nil hne)
      rcases List.mem_map.mp hmin with ⟨s, hs, hsval⟩
      refine ⟨scoreRow stats s, List.mem_map_of_mem _ hs, ?_⟩
      show minmaxScale (listMin (avgColumn stats)) (listMax (avgColumn stats)) s.avg_rating = 0
      rw [hsval]
      exact minmaxScale_at_min hdim
    · have hmax : listMax (avgColumn stats) ∈ avgColumn stats :=
        listMax_mem (avgColumn_ne_nil hne)
      rcases List.mem_map.mp hmax with ⟨s, hs, hsval⟩
      refine ⟨scoreRow stats s, List.mem_map_of_mem _ hs, ?_⟩
      show minmaxScale (listMin (avgColumn stats)) (listMax (avgColumn stats)) s.avg_rating = 1
      rw [hsval]
      exact minmaxScale_at_max hdim
  · intro hdim
    refine ⟨?_, ?_, ?_⟩
    · intro t ht
      rcases mem_scoreStats ht with ⟨s, hs, rfl⟩
      exact scale_col_props (count_mem_countColumn hs) hdim
    · have hmin : listMin (countColumn stats) ∈ countColumn stats :=
        listMin_mem (countColumn_ne_nil hne)
      rcases List.mem_map.mp hmin with ⟨s, hs, hsval⟩
      refine ⟨scoreRow stats s, List.mem_map_of_mem _ hs, ?_⟩
      show minmaxScale (listMin (countColumn stats)) (listMax (countColumn stats))
        (s.rating_count : ℚ) = 0
      rw [hsval]
      exact minmaxScale_at_min hdim
    · have hmax : listMax (countColumn stats) ∈ countColumn stats :=
        listMax_mem (countColumn_ne_nil hne)
      rcases List.mem_map.mp hmax with ⟨s, hs, hsval⟩
      refine ⟨scoreRow stats s, List.mem_map_of_mem _ hs, ?_⟩
      show minmaxScale (listMin (countColumn stats)) (listMax (countColumn stats))
        (s.rating_count : ℚ) = 1
      rw [hsval]
      exact minmaxScale_at_max hdim

lemma exStats_count_nondegenerate :
    listMin (countColumn exStats) ≠ listMax (countColumn exStats) := by
  norm_num [listMin, listMax, countColumn, exStats, min_def, max_def]

lemma scoredEx1_count_at_max : (scoredEx1.rating_count : ℚ) = listMax (countColumn exStats) := by
  norm_num [listMax, countColumn, exStats, scoredEx1, max_def]

theorem claim_C8_witness : scoredEx1.rating_count_scaled = 1 :=
  (((claim_C8 exStats exStats_ne_nil).2 exStats_count_nondegenerate).1 scoredEx1
    (by rw [scoreStats_ex]; simp)).2.2.2 scoredEx1_count_at_max

lemma genreContains_action_dot : genreContains actionEntry.genres "." = true := by decide

lemma specGenreMatch_action_dot : specGenreMatch actionEntry.genres "." = false := by decide

/-- Claim C3 counterexample: with query `"."`, the filter keeps an entry whose
genre string contains no dot at all, while case-insensitive substring
containment keeps nothing — `str.contains` reads the query as a regular
expression (`regex=True` default), so the dot matches any character. -/
theorem claim_C3_counterexample :
    filterByGenre [actionEntry] "." = [actionEntry]
    ∧ List.filter (fun e => specGenreMatch e.genres ".") [actionEntry] = [] := by
  constructor
  · simp [filterByGenre, List.filter_cons, genreContains_action_dot]
  · simp [List.filter_cons, specGenreMatch_action_dot]

/-- Claim C3 amended: for queries made only of regex-literal characters (no
metacharacter, in particular no dot), the filter keeps exactly the entries
whose joined genre string contains the query as a case-insensitive plain
substring; for general queries the code performs a case-insensitive
regular-expression search instead. -/
theorem claim_C3_amended (pat : String) (entries : List PopEntry) (h : patPlain pat) :
    filterByGenre entries pat = entries.filter (fun e => specGenreMatch e.genres pat) :=
  List.filter_congr (fun e _ => genreContains_eq_spec h e.genres)

theorem claim_C3_amended_witness :
    filterByGenre demoEntries "Comedy"
      = demoEntries.filter (fun e => specGenreMatch e.genres "Comedy") :=
  claim_C3_amended "Comedy" demoEntries (by decide)

lemma genreContains_ex1_drama : genreContains popEx1.genres "Drama" = false := by decide

lemma genreContains_ex2_drama : genreContains popEx2.genres "Drama" = true := by decide

lemma filter_demo_drama : filterByGenre demoEntries "Drama" = [popEx2] := by
  simp [filterByGenre, demoEntries, List.filter_cons, genreContains_ex1_drama,
    genreContains_ex2_drama]

lemma filter_demo_drama_ne_nil : filterByGenre demoEntries "Drama" ≠ [] := by
  rw [filter_demo_drama]
  simp

/-- Claim C4: for a non-empty genre query (within the embedded regex fragment),
an empty filter result makes the operation return the distinct no-match signal
`none`, and a non-empty filter result always yields `some` of the ranked
rows — never the signal. -/
theorem claim_C4 (entries : List PopEntry) (g : String) (n : Nat)
    (hg : g ≠ "") (hpat : patSimple g) :
    (filterByGenre entries g = [] → recommend_popular_movies entries n (some g) = none)
    ∧ (filterByGenre entries g ≠ [] →
        recommend_popular_movies entries n (some g)
          = some ((sortEntriesDesc (filterByGenre entries g)).take n)) := by
  constructor
  · intro hf
    simp only [recommend_popular_movies]
    rw [if_pos hg, if_pos hf]
  · intro hf
    simp only [recommend_popular_movies]
    rw [if_pos hg, if_neg hf]

theorem claim_C4_witness :
    recommend_popular_movies demoEntries 1 (some "Drama")
      = some ((sortEntriesDesc (filterByGenre demoEntries "Drama")).take 1) :=
  (claim_C4 demoEntries "Drama" 1 (by decide) (by decide)).2 filter_demo_drama_ne_nil

lemma sortEntriesDesc_demo : sortEntriesDesc demoEntries = demoEntries := by
  norm_num [sortEntriesDesc, List.insertionSort, List.orderedInsert, entryDescRel,
    demoEntries, popEx1, popEx2]

lemma sortEntriesDesc_demoUnsorted : sortEntriesDesc demoUnsorted = [popEx1, popEx2] := by
  norm_num [sortEntriesDesc, List.insertionSort, List.orderedInsert, entryDescRel,
    demoUnsorted, popEx1, popEx2]

lemma filter_ex1_drama : filterByGenre [popEx1] "Drama" = [] := by
  simp [filterByGenre, List.filter_cons, genreContains_ex1_drama]

/-- Claim C6: with a genre, the operation filters the full entry set first and
only then sorts and truncates to the top `n` — it equals `rankTop n` of the
filtered set — and on concrete data filter-then-rank differs from
rank-then-filter at small `n`. -/
theorem claim_C6 :
    (∀ (entries : List PopEntry) (g : String) (n : Nat), g ≠ "" →
      filterByGenre entries g ≠ [] →
      recommend_popular_movies entries n (some g) = some (rankTop n (filterByGenre entries g)))
    ∧ rankTop 1 (filterByGenre demoEntries "Drama")
        ≠ filterByGenre (rankTop 1 demoEntries) "Drama" := by
  constructor
  · intro entries g n hg hf
    simp only [recommend_popular_movies]
    rw [if_pos hg, if_neg hf]
    rfl
  · have e2 : rankTop 1 demoEntries = [popEx1] := by
      rw [rankTop, sortEntriesDesc_demo]
      rfl
    have e3 : sortEntriesDesc [popEx2] = [popEx2] := rfl
    rw [filter_demo_drama, e2, filter_ex1_drama, rankTop, e3]
    simp

theorem claim_C6_witness :
    recommend_popular_movies demoEntries 1 (some "Drama")
      = some (rankTop 1 (filterByGenre demoEntries "Drama")) :=
  claim_C6.1 demoEntries "Drama" 1 (by decide) filter_demo_drama_ne_nil

lemma demoEntries_sorted : demoEntries.Pairwise entryDescRel := by
  norm_num [demoEntries, List.pairwise_cons, entryDescRel, popEx1, popEx2]

/-- Claim C9: with no genre, the operation performs no sorting — it returns
exactly the first `n` input entries in their given order (all of them when `n`
exceeds the length), which coincides with the true top `n` by score exactly
when the input is already sorted descending; on an unsorted input the result
differs from the true top `n`. -/
theorem claim_C9 (entries : List PopEntry) (n : Nat) :
    recommend_popular_movies entries n none = some (entries.take n)
    ∧ (entries.length ≤ n → recommend_popular_movies entries n none = some entries)
    ∧ (entries.Pairwise entryDescRel → entries.take n = rankTop n entries)
    ∧ recommend_popular_movies demoUnsorted 1 none ≠ some (rankTop 1 demoUnsorted) := by
  refine ⟨rfl, ?_, ?_, ?_⟩
  · intro h
    simp only [recommend_popular_movies]
    rw [List.take_of_length_le h]
  · intro h
    rw [rankTop]
    show entries.take n = (List.insertionSort entryDescRel entries).take n
    rw [List.Sorted.insertionSort_eq h]
  · have e1 : rankTop 1 demoUnsorted = [popEx1] := by
      rw [rankTop, sortEntriesDesc_demoUnsorted]
      rfl
    rw [e1]
    simp only [recommend_popular_movies, demoUnsorted]
    simp [popEx1, popEx2]

theorem claim_C9_witness : demoEntries.take 1 = rankTop 1 demoEntries :=
  (claim_C9 demoEntries 1).2.2.1 demoEntries_sorted

/-- Claim C10: an empty genre string is falsy, so the operation behaves exactly
as with no genre at all — no filtering, never the no-match signal, the plain
first-`n` prefix wrapped in `some`. -/
theorem claim_C10 (entries : List PopEntry) (n : Nat) :
    recommend_popular_movies entries n (some "") = recommend_popular_movies entries n none
    ∧ recommend_popular_movies entries n (some "") = some (entries.take n) := by
  constructor <;> rfl

end MovieRec
